import Mathlib

/-!
# TFTP client: the generated form `ui_widget.h` and the protocol engine of the specification

Part I embeds `Ui_Widget::setupUi` and `Ui_Widget::retranslateUi` of
`TFTP_autogen/include/ui_widget.h` as state-passing functions over a small model of the
Qt object tree.  Part II models the protocol engine (packet codec, mode transform,
timeout handling), which is not part of the inspected source, from the specification.
-/

namespace TFTP

/-! ## Part I: the Qt object model used by `ui_widget.h` -/

/-- The rectangle `QRect(x, y, w, h)`: left, top, width, height. -/
structure QRect where
  x : Int
  y : Int
  w : Int
  h : Int
deriving DecidableEq, Repr

/-- The four widget classes instantiated by `setupUi`. -/
inductive WidgetClass where
  | QLineEdit
  | QLabel
  | QPushButton
  | QListView
deriving DecidableEq, Repr

/-- A child widget of the form.  `text = none` records that `setText` was never called on it,
`font = none` that `setFont` was never called (the value is then the point size given).
`readOnly` is the `QLineEdit::readOnly` property, which a newly constructed widget has
cleared. -/
structure ChildWidget where
  cls : WidgetClass
  objectName : String
  geometry : QRect
  text : Option String
  font : Option Int
  readOnly : Bool
deriving DecidableEq, Repr

/-- The parent `QWidget` handed to `setupUi`: the properties the form touches and the list
of its children.  A pointer to a child is its index in `children`. -/
structure QWidget where
  objectName : String
  width : Int
  height : Int
  windowTitle : String
  children : List ChildWidget
deriving DecidableEq, Repr

/-- The twelve pointer members of `class Ui_Widget`, in declaration order. -/
structure Ui_Widget where
  IPLine : Nat
  PortLine : Nat
  LabelIP : Nat
  LabelPort : Nat
  GetBtn : Nat
  MessageList : Nat
  SendBtn : Nat
  ChangeModeBtn : Nat
  FileLine : Nat
  LabelFile : Nat
  ModeLabel : Nat
  ClearBtn : Nat
deriving DecidableEq, Repr

/-- Apply `f` to the element at index `n`, leaving the list unchanged when `n` is out of
range. -/
def updateAt {α : Type} (f : α → α) : List α → Nat → List α
  | [], _ => []
  | a :: as, 0 => f a :: as
  | a :: as, n + 1 => a :: updateAt f as n

/-- The state of a widget right after `new C(parent)`: empty object name, the geometry Qt
gives a child widget before any `setGeometry`, no text, no font, editable. -/
def ChildWidget.fresh (c : WidgetClass) : ChildWidget :=
  ⟨c, "", ⟨0, 0, 100, 30⟩, none, none, false⟩

/-- `new C(Widget)`: the new object is appended to the children of `Widget`; the returned
pointer designates it. -/
def QWidget.newChild (W : QWidget) (c : WidgetClass) : Nat × QWidget :=
  (W.children.length, { W with children := W.children ++ [ChildWidget.fresh c] })

/-- `Widget->setObjectName(name)`. -/
def QWidget.setObjectName (W : QWidget) (name : String) : QWidget :=
  { W with objectName := name }

/-- `Widget->resize(w, h)`. -/
def QWidget.resize (W : QWidget) (w h : Int) : QWidget :=
  { W with width := w, height := h }

/-- `Widget->setWindowTitle(title)`. -/
def QWidget.setWindowTitle (W : QWidget) (title : String) : QWidget :=
  { W with windowTitle := title }

/-- `p->setObjectName(name)` for a child pointer `p`. -/
def QWidget.childSetObjectName (W : QWidget) (p : Nat) (name : String) : QWidget :=
  { W with children := updateAt (fun c => { c with objectName := name }) W.children p }

/-- `p->setGeometry(r)` for a child pointer `p`. -/
def QWidget.childSetGeometry (W : QWidget) (p : Nat) (r : QRect) : QWidget :=
  { W with children := updateAt (fun c => { c with geometry := r }) W.children p }

/-- `p->setText(s)` for a child pointer `p`. -/
def QWidget.childSetText (W : QWidget) (p : Nat) (s : String) : QWidget :=
  { W with children := updateAt (fun c => { c with text := some s }) W.children p }

/-- `p->setFont(font)` for a child pointer `p`, the font being given by its point size. -/
def QWidget.childSetFont (W : QWidget) (p : Nat) (pointSize : Int) : QWidget :=
  { W with children := updateAt (fun c => { c with font := some pointSize }) W.children p }

/-- `QMetaObject::connectSlotsByName(Widget)` wires signals to slots; it changes none of the
properties modelled here. -/
def connectSlotsByName (W : QWidget) : QWidget := W

/-- The type of `QCoreApplication::translate(context, sourceText, nullptr)`. -/
abbrev Translate := String → String → String

/-- The translator that returns its source text (no translation installed). -/
def translateId : Translate := fun _ sourceText => sourceText

/-- `Ui_Widget::retranslateUi`, lines 88-101. -/
def retranslateUi (tr : Translate) (ui : Ui_Widget) (Widget : QWidget) : QWidget :=
  let Widget := Widget.setWindowTitle (tr "Widget" "Widget")
  let Widget := Widget.childSetText ui.IPLine (tr "Widget" "10.12.174.1")
  let Widget := Widget.childSetText ui.PortLine (tr "Widget" "69")
  let Widget := Widget.childSetText ui.LabelIP (tr "Widget" "Server IP:")
  let Widget := Widget.childSetText ui.LabelPort (tr "Widget" "Server Port:")
  let Widget := Widget.childSetText ui.GetBtn (tr "Widget" "Get")
  let Widget := Widget.childSetText ui.SendBtn (tr "Widget" "Send")
  let Widget := Widget.childSetText ui.ChangeModeBtn (tr "Widget" "Change Mode")
  let Widget := Widget.childSetText ui.LabelFile (tr "Widget" "File:")
  let Widget := Widget.childSetText ui.ModeLabel (tr "Widget" "Current Mode: octet")
  let Widget := Widget.childSetText ui.ClearBtn (tr "Widget" "Clear")
  Widget

/-- `Ui_Widget::setupUi`, lines 38-86.  The members of `ui` on entry are whatever the
object held before; each is overwritten. -/
def setupUi (tr : Translate) (ui : Ui_Widget) (Widget : QWidget) : Ui_Widget × QWidget :=
  let Widget : QWidget := if Widget.objectName.isEmpty then Widget.setObjectName "Widget" else Widget
  let Widget : QWidget := Widget.resize 855 600
  let r : Nat × QWidget := Widget.newChild WidgetClass.QLineEdit
  let ui : Ui_Widget := { ui with IPLine := r.1 }
  let Widget : QWidget := r.2
  let Widget : QWidget := Widget.childSetObjectName ui.IPLine "IPLine"
  let Widget : QWidget := Widget.childSetGeometry ui.IPLine (QRect.mk 130 70 221 31)
  let r : Nat × QWidget := Widget.newChild WidgetClass.QLineEdit
  let ui : Ui_Widget := { ui with PortLine := r.1 }
  let Widget : QWidget := r.2
  let Widget : QWidget := Widget.childSetObjectName ui.PortLine "PortLine"
  let Widget : QWidget := Widget.childSetGeometry ui.PortLine (QRect.mk 130 130 221 31)
  let r : Nat × QWidget := Widget.newChild WidgetClass.QLabel
  let ui : Ui_Widget := { ui with LabelIP := r.1 }
  let Widget : QWidget := r.2
  let Widget : QWidget := Widget.childSetObjectName ui.LabelIP "LabelIP"
  let Widget : QWidget := Widget.childSetGeometry ui.LabelIP (QRect.mk 20 80 101 18)
  let r : Nat × QWidget := Widget.newChild WidgetClass.QLabel
  let ui : Ui_Widget := { ui with LabelPort := r.1 }
  let Widget : QWidget := r.2
  let Widget : QWidget := Widget.childSetObjectName ui.LabelPort "LabelPort"
  let Widget : QWidget := Widget.childSetGeometry ui.LabelPort (QRect.mk 10 130 121 18)
  let r : Nat × QWidget := Widget.newChild WidgetClass.QPushButton
  let ui : Ui_Widget := { ui with GetBtn := r.1 }
  let Widget : QWidget := r.2
  let Widget : QWidget := Widget.childSetObjectName ui.GetBtn "GetBtn"
  let Widget : QWidget := Widget.childSetGeometry ui.GetBtn (QRect.mk 380 70 112 34)
  let r : Nat × QWidget := Widget.newChild WidgetClass.QListView
  let ui : Ui_Widget := { ui with MessageList := r.1 }
  let Widget : QWidget := r.2
  let Widget : QWidget := Widget.childSetObjectName ui.MessageList "MessageList"
  let Widget : QWidget := Widget.childSetGeometry ui.MessageList (QRect.mk 30 190 791 381)
  let r : Nat × QWidget := Widget.newChild WidgetClass.QPushButton
  let ui : Ui_Widget := { ui with SendBtn := r.1 }
  let Widget : QWidget := r.2
  let Widget : QWidget := Widget.childSetObjectName ui.SendBtn "SendBtn"
  let Widget : QWidget := Widget.childSetGeometry ui.SendBtn (QRect.mk 380 130 112 34)
  let r : Nat × QWidget := Widget.newChild WidgetClass.QPushButton
  let ui : Ui_Widget := { ui with ChangeModeBtn := r.1 }
  let Widget : QWidget := r.2
  let Widget : QWidget := Widget.childSetObjectName ui.ChangeModeBtn "ChangeModeBtn"
  let Widget : QWidget := Widget.childSetGeometry ui.ChangeModeBtn (QRect.mk 510 70 112 34)
  let r : Nat × QWidget := Widget.newChild WidgetClass.QLineEdit
  let ui : Ui_Widget := { ui with FileLine := r.1 }
  let Widget : QWidget := r.2
  let Widget : QWidget := Widget.childSetObjectName ui.FileLine "FileLine"
  let Widget : QWidget := Widget.childSetGeometry ui.FileLine (QRect.mk 130 20 591 31)
  let r : Nat × QWidget := Widget.newChild WidgetClass.QLabel
  let ui : Ui_Widget := { ui with LabelFile := r.1 }
  let Widget : QWidget := r.2
  let Widget : QWidget := Widget.childSetObjectName ui.LabelFile "LabelFile"
  let Widget : QWidget := Widget.childSetGeometry ui.LabelFile (QRect.mk 30 20 81 18)
  let r : Nat × QWidget := Widget.newChild WidgetClass.QLabel
  let ui : Ui_Widget := { ui with ModeLabel := r.1 }
  let Widget : QWidget := r.2
  let Widget : QWidget := Widget.childSetObjectName ui.ModeLabel "ModeLabel"
  let Widget : QWidget := Widget.childSetGeometry ui.ModeLabel (QRect.mk 640 80 201 16)
  let font : Int := 12
  let Widget : QWidget := Widget.childSetFont ui.ModeLabel font
  let r : Nat × QWidget := Widget.newChild WidgetClass.QPushButton
  let ui : Ui_Widget := { ui with ClearBtn := r.1 }
  let Widget : QWidget := r.2
  let Widget : QWidget := Widget.childSetObjectName ui.ClearBtn "ClearBtn"
  let Widget : QWidget := Widget.childSetGeometry ui.ClearBtn (QRect.mk 510 130 112 34)
  let Widget : QWidget := retranslateUi tr ui Widget
  let Widget : QWidget := connectSlotsByName Widget
  (ui, Widget)

/-- The children of the form as `setupUi` leaves them, in creation order, for a translator
`tr`. -/
def formChildren (tr : Translate) : List ChildWidget :=
  [ ⟨WidgetClass.QLineEdit, "IPLine", ⟨130, 70, 221, 31⟩, some (tr "Widget" "10.12.174.1"), none, false⟩,
    ⟨WidgetClass.QLineEdit, "PortLine", ⟨130, 130, 221, 31⟩, some (tr "Widget" "69"), none, false⟩,
    ⟨WidgetClass.QLabel, "LabelIP", ⟨20, 80, 101, 18⟩, some (tr "Widget" "Server IP:"), none, false⟩,
    ⟨WidgetClass.QLabel, "LabelPort", ⟨10, 130, 121, 18⟩, some (tr "Widget" "Server Port:"), none, false⟩,
    ⟨WidgetClass.QPushButton, "GetBtn", ⟨380, 70, 112, 34⟩, some (tr "Widget" "Get"), none, false⟩,
    ⟨WidgetClass.QListView, "MessageList", ⟨30, 190, 791, 381⟩, none, none, false⟩,
    ⟨WidgetClass.QPushButton, "SendBtn", ⟨380, 130, 112, 34⟩, some (tr "Widget" "Send"), none, false⟩,
    ⟨WidgetClass.QPushButton, "ChangeModeBtn", ⟨510, 70, 112, 34⟩, some (tr "Widget" "Change Mode"), none, false⟩,
    ⟨WidgetClass.QLineEdit, "FileLine", ⟨130, 20, 591, 31⟩, none, none, false⟩,
    ⟨WidgetClass.QLabel, "LabelFile", ⟨30, 20, 81, 18⟩, some (tr "Widget" "File:"), none, false⟩,
    ⟨WidgetClass.QLabel, "ModeLabel", ⟨640, 80, 201, 16⟩, some (tr "Widget" "Current Mode: octet"), some 12, false⟩,
    ⟨WidgetClass.QPushButton, "ClearBtn", ⟨510, 130, 112, 34⟩, some (tr "Widget" "Clear"), none, false⟩ ]

/-- The object name of the form after `setupUi`: set to "Widget" only when it was empty. -/
def formObjectName (W : QWidget) : String :=
  if W.objectName.isEmpty then "Widget" else W.objectName

/-- The pointers `setupUi` stores in the members when `W` had `n` children before: the twelve
new children, in creation order. -/
def formMembers (n : Nat) : Ui_Widget :=
  ⟨n, n + 1, n + 2, n + 3, n + 4, n + 5, n + 6, n + 7, n + 8, n + 9, n + 10, n + 11⟩

/-- Dereference of a child pointer of `W`. -/
def QWidget.child (W : QWidget) (p : Nat) : Option ChildWidget :=
  W.children[p]?

/-- The children a run of `setupUi` creates: those after the ones `W` had on entry. -/
def createdChildren (tr : Translate) (ui : Ui_Widget) (W : QWidget) : List ChildWidget :=
  (setupUi tr ui W).2.children.drop W.children.length

/-- The members of `Ui_Widget` with their names, in declaration order. -/
def Ui_Widget.members (ui : Ui_Widget) : List (String × Nat) :=
  [("IPLine", ui.IPLine), ("PortLine", ui.PortLine), ("LabelIP", ui.LabelIP),
   ("LabelPort", ui.LabelPort), ("GetBtn", ui.GetBtn), ("MessageList", ui.MessageList),
   ("SendBtn", ui.SendBtn), ("ChangeModeBtn", ui.ChangeModeBtn), ("FileLine", ui.FileLine),
   ("LabelFile", ui.LabelFile), ("ModeLabel", ui.ModeLabel), ("ClearBtn", ui.ClearBtn)]

/-- The pixel `(px, py)` lies in the rectangle, read as the pixel set
`[x, x + w - 1] × [y, y + h - 1]` (`QRect::contains`). -/
def QRect.contains (r : QRect) (px py : Int) : Prop :=
  r.x ≤ px ∧ px ≤ r.x + r.w - 1 ∧ r.y ≤ py ∧ py ≤ r.y + r.h - 1

/-- Two rectangles share a pixel. -/
def QRect.overlaps (r s : QRect) : Prop :=
  ∃ px py : Int, r.contains px py ∧ s.contains px py

/-- Decision procedure for `QRect.overlaps`: the two pixel intervals meet on both axes. -/
def QRect.intersects (r s : QRect) : Bool :=
  decide (max r.x s.x ≤ min (r.x + r.w - 1) (s.x + s.w - 1)) &&
  decide (max r.y s.y ≤ min (r.y + r.h - 1) (s.y + s.h - 1))

/-- The rectangle lies inside a `width x height` window whose origin is `(0, 0)`. -/
def QRect.fitsIn (r : QRect) (width height : Int) : Prop :=
  0 ≤ r.x ∧ 0 ≤ r.y ∧ r.x + r.w ≤ width ∧ r.y + r.h ≤ height

instance (r : QRect) (width height : Int) : Decidable (r.fitsIn width height) := by
  unfold QRect.fitsIn
  exact inferInstance

/-- Object name and rectangle of each child `setupUi` lays out, in creation order. -/
def formGeometry : List (String × QRect) :=
  [("IPLine", ⟨130, 70, 221, 31⟩), ("PortLine", ⟨130, 130, 221, 31⟩),
   ("LabelIP", ⟨20, 80, 101, 18⟩), ("LabelPort", ⟨10, 130, 121, 18⟩),
   ("GetBtn", ⟨380, 70, 112, 34⟩), ("MessageList", ⟨30, 190, 791, 381⟩),
   ("SendBtn", ⟨380, 130, 112, 34⟩), ("ChangeModeBtn", ⟨510, 70, 112, 34⟩),
   ("FileLine", ⟨130, 20, 591, 31⟩), ("LabelFile", ⟨30, 20, 81, 18⟩),
   ("ModeLabel", ⟨640, 80, 201, 16⟩), ("ClearBtn", ⟨510, 130, 112, 34⟩)]

/-! ## Part II: the protocol engine, modelled from the specification

Bytes are natural numbers below 256, 16-bit fields natural numbers below 65536; a byte
buffer is a list of bytes. -/

/-- Modelled from the spec: the transfer mode of §3 (`mode` is one of netascii, octet); the
protocol engine is not part of the inspected source. -/
inductive Mode where
  | netascii
  | octet
deriving DecidableEq, Repr

/-- Modelled from the spec: the `Packet` variant of §3, absent from the inspected source. -/
inductive Packet where
  | ReadRequest (filename : List Nat) (mode : Mode)
  | WriteRequest (filename : List Nat) (mode : Mode)
  | Data (blockNumber : Nat) (payload : List Nat)
  | Acknowledgment (blockNumber : Nat)
  | Error (code : Nat) (message : List Nat)
deriving DecidableEq, Repr

/-- Modelled from the spec: the only decode failure §4.1 names. -/
inductive DecodeError where
  | Malformed
deriving DecidableEq, Repr

/-- Modelled from the spec: a string field is a NUL-terminated ASCII string (§6), so its
characters are ASCII codes other than NUL. -/
def validString (s : List Nat) : Prop :=
  ∀ b ∈ s, 0 < b ∧ b < 128

instance (s : List Nat) : Decidable (validString s) := by
  unfold validString
  exact inferInstance

/-- Modelled from the spec: validity of a packet (§3): string fields as in `validString`,
16-bit fields below 65536, payload bytes below 256 and at most 512 of them. -/
def Packet.valid : Packet → Prop
  | Packet.ReadRequest filename _ => validString filename
  | Packet.WriteRequest filename _ => validString filename
  | Packet.Data blockNumber payload =>
      blockNumber < 65536 ∧ payload.length ≤ 512 ∧ ∀ b ∈ payload, b < 256
  | Packet.Acknowledgment blockNumber => blockNumber < 65536
  | Packet.Error code message => code < 65536 ∧ validString message

instance (P : Packet) : Decidable P.valid := by
  cases P <;> unfold Packet.valid <;> exact inferInstance

/-- Modelled from the spec: the big-endian encoding of a 16-bit integer (§4.1, §6), part of
the absent codec. -/
def u16be (n : Nat) : List Nat :=
  [n / 256 % 256, n % 256]

/-- Modelled from the spec: the ASCII name of a mode on the wire, "netascii" or "octet". -/
def Mode.wireName : Mode → List Nat
  | Mode.netascii => [110, 101, 116, 97, 115, 99, 105, 105]
  | Mode.octet => [111, 99, 116, 101, 116]

/-- Modelled from the spec: ASCII lower-casing of one byte, for the case-insensitive mode
name of §3 (part of the absent codec). -/
def toLowerByte (b : Nat) : Nat :=
  if 65 ≤ b ∧ b ≤ 90 then b + 32 else b

/-- Modelled from the spec: the mode named by a wire string, case-insensitively (§3). -/
def Mode.ofWire (s : List Nat) : Option Mode :=
  if s.map toLowerByte = Mode.wireName Mode.netascii then some Mode.netascii
  else if s.map toLowerByte = Mode.wireName Mode.octet then some Mode.octet
  else none

/-- Modelled from the spec: reading a NUL-terminated string field (§4.1, part of the absent
codec): the bytes before the first NUL and the bytes after it; `none` when the terminator is
missing. -/
def splitAtNul : List Nat → Option (List Nat × List Nat)
  | [] => none
  | b :: bs =>
    if b = 0 then some ([], bs)
    else (splitAtNul bs).map (fun r => (b :: r.1, r.2))

/-- Modelled from the spec: `encode` of §4.1, absent from the inspected source.  Opcode
first, then the fields of the table; a DATA packet carries at most the first 512 payload
bytes (the length bound is enforced on encode). -/
def encode : Packet → List Nat
  | Packet.ReadRequest filename mode => u16be 1 ++ filename ++ [0] ++ mode.wireName ++ [0]
  | Packet.WriteRequest filename mode => u16be 2 ++ filename ++ [0] ++ mode.wireName ++ [0]
  | Packet.Data blockNumber payload => u16be 3 ++ u16be blockNumber ++ payload.take 512
  | Packet.Acknowledgment blockNumber => u16be 4 ++ u16be blockNumber
  | Packet.Error code message => u16be 5 ++ u16be code ++ message ++ [0]

/-- Modelled from the spec: the body of a request, `filename NUL mode NUL`. -/
def decodeRequest (mk : List Nat → Mode → Packet) (body : List Nat) :
    Except DecodeError Packet :=
  match splitAtNul body with
  | none => Except.error DecodeError.Malformed
  | some (filename, rest) =>
    match splitAtNul rest with
    | none => Except.error DecodeError.Malformed
    | some (modeName, _) =>
      match Mode.ofWire modeName with
      | none => Except.error DecodeError.Malformed
      | some mode => Except.ok (mk filename mode)

/-- Modelled from the spec: the big-endian 16-bit opcode field of a buffer (§4.1, part of the
absent codec), when the buffer has the two bytes. -/
def opcodeOf : List Nat → Option Nat
  | hi :: lo :: _ => some (hi * 256 + lo)
  | _ => none

/-- Modelled from the spec: `decode` of §4.1, absent from the inspected source.  It fails
with `Malformed` on a buffer shorter than the opcode field, an opcode outside 1..5, a field
that is cut short, a missing NUL terminator, an unknown mode name, or a DATA payload of more
than 512 bytes. -/
def decode (buf : List Nat) : Except DecodeError Packet :=
  match buf with
  | hi :: lo :: body =>
    if hi * 256 + lo = 1 then decodeRequest Packet.ReadRequest body
    else if hi * 256 + lo = 2 then decodeRequest Packet.WriteRequest body
    else if hi * 256 + lo = 3 then
      match body with
      | bh :: bl :: payload =>
        if payload.length ≤ 512 then Except.ok (Packet.Data (bh * 256 + bl) payload)
        else Except.error DecodeError.Malformed
      | _ => Except.error DecodeError.Malformed
    else if hi * 256 + lo = 4 then
      match body with
      | bh :: bl :: _ => Except.ok (Packet.Acknowledgment (bh * 256 + bl))
      | _ => Except.error DecodeError.Malformed
    else if hi * 256 + lo = 5 then
      match body with
      | ch :: cl :: rest =>
        match splitAtNul rest with
        | some (message, _) => Except.ok (Packet.Error (ch * 256 + cl) message)
        | none => Except.error DecodeError.Malformed
      | _ => Except.error DecodeError.Malformed
    else Except.error DecodeError.Malformed
  | _ => Except.error DecodeError.Malformed

/-- Modelled from the spec: the CR byte of the absent mode transform (§4.2). -/
def CR : Nat := 13

/-- Modelled from the spec: the LF byte, the local line terminator of the absent mode
transform (§4.2, §8). -/
def LF : Nat := 10

/-- Modelled from the spec: the NUL byte of the absent mode transform (§4.2). -/
def NUL : Nat := 0

/-- Modelled from the spec: the netascii send transform of §4.2: a local line terminator
becomes CR LF, a bare CR becomes CR NUL. -/
def netasciiToWire : List Nat → List Nat
  | [] => []
  | b :: bs =>
    if b = LF then CR :: LF :: netasciiToWire bs
    else if b = CR then CR :: NUL :: netasciiToWire bs
    else b :: netasciiToWire bs

/-- Modelled from the spec: the netascii receive transform of §4.2, carrying one pending CR
across calls: CR LF becomes the local line terminator, CR NUL a bare CR.  A CR followed by
any other byte is passed through. -/
def netasciiFromWire : Bool → List Nat → List Nat × Bool
  | pending, [] => ([], pending)
  | true, b :: bs =>
    if b = LF then
      let r := netasciiFromWire false bs
      (LF :: r.1, r.2)
    else if b = NUL then
      let r := netasciiFromWire false bs
      (CR :: r.1, r.2)
    else if b = CR then
      let r := netasciiFromWire true bs
      (CR :: r.1, r.2)
    else
      let r := netasciiFromWire false bs
      (CR :: b :: r.1, r.2)
  | false, b :: bs =>
    if b = CR then netasciiFromWire true bs
    else
      let r := netasciiFromWire false bs
      (b :: r.1, r.2)

/-- Modelled from the spec: `toWire(localBytes, mode)` of §4.2, absent from the inspected
source. -/
def toWire (localBytes : List Nat) (mode : Mode) : List Nat :=
  match mode with
  | Mode.octet => localBytes
  | Mode.netascii => netasciiToWire localBytes

/-- Modelled from the spec: `fromWire(wireBytes, mode)` of §4.2, absent from the inspected
source; a CR still pending at the end of the input is emitted as it is. -/
def fromWire (wireBytes : List Nat) (mode : Mode) : List Nat :=
  match mode with
  | Mode.octet => wireBytes
  | Mode.netascii =>
    let r := netasciiFromWire false wireBytes
    if r.2 then r.1 ++ [CR] else r.1

/-- Modelled from the spec: direction of a transfer (§3). -/
inductive Direction where
  | Download
  | Upload
deriving DecidableEq, Repr

/-- Modelled from the spec: the concrete reason carried by an `Aborted` transition (§7). -/
inductive AbortReason where
  | Timeout
  | PeerError (code : Nat) (message : List Nat)
  | LocalIOError
  | Cancelled
deriving DecidableEq, Repr

/-- Modelled from the spec: the states of §4.3. -/
inductive SessionState where
  | Idle
  | Requesting
  | Transferring
  | Completing
  | Done
  | Aborted (reason : AbortReason)
deriving DecidableEq, Repr

/-- Modelled from the spec: `TransferSession` of §3, absent from the inspected source.  The
remote endpoint is a host string and a port; `lastSentPacket` is `none` until a packet has
been sent. -/
structure TransferSession where
  direction : Direction
  remoteHost : String
  remotePort : Nat
  mode : Mode
  expectedBlock : Nat
  lastSentPacket : Option Packet
  retriesRemaining : Nat
  state : SessionState
  bytesTransferred : Nat
deriving DecidableEq, Repr

/-- Modelled from the spec: what the absent session asks of its collaborators when it
handles an event (§4.3): sending a packet through the transport, arming the retry timer. -/
inductive Effect where
  | send (packet : Packet)
  | armTimer
deriving DecidableEq, Repr

/-- Modelled from the spec: the states in which a session awaits a reply to a packet it
sent (§4.3): `Requesting` and `Transferring`. -/
def TransferSession.awaitingReply (s : TransferSession) : Prop :=
  s.state = SessionState.Requesting ∨ s.state = SessionState.Transferring

instance (s : TransferSession) : Decidable s.awaitingReply := by
  unfold TransferSession.awaitingReply
  exact inferInstance

/-- Modelled from the spec: the timeout event of §4.3, absent from the inspected source.
Awaiting a reply: with retries left, resend `lastSentPacket`, decrement, restart the timer
and stay; with none left, abort with a timeout.  In `Completing` the timeout ends the
transfer in `Done`.  In any other state no timer is armed and nothing changes. -/
def onTimeout (s : TransferSession) : TransferSession × List Effect :=
  match s.state with
  | SessionState.Requesting | SessionState.Transferring =>
    if s.retriesRemaining = 0 then
      ({ s with state := SessionState.Aborted AbortReason.Timeout }, [])
    else
      ({ s with retriesRemaining := s.retriesRemaining - 1 },
        (s.lastSentPacket.map Effect.send).toList ++ [Effect.armTimer])
  | SessionState.Completing => ({ s with state := SessionState.Done }, [])
  | _ => (s, [])

/-- A download session that has sent its read request and has three retries left. -/
def sampleSession : TransferSession :=
  { direction := Direction.Download
    remoteHost := "10.0.0.1"
    remotePort := 69
    mode := Mode.octet
    expectedBlock := 1
    lastSentPacket := some (Packet.ReadRequest [114, 101, 97, 100, 109, 101] Mode.octet)
    retriesRemaining := 3
    state := SessionState.Requesting
    bytesTransferred := 0 }

/-! ## Lemmas and theorems -/

theorem updateAt_append_right {α : Type} (f : α → α) (l r : List α) (i : Nat) :
    updateAt f (l ++ r) (l.length + i) = l ++ updateAt f r i := by
  induction l with
  | nil => simp
  | cons a l ih =>
    have h : (a :: l).length + i = (l.length + i) + 1 := by simp; omega
    rw [h]
    simpa [updateAt] using ih

theorem updateAt_append_length {α : Type} (f : α → α) (l r : List α) :
    updateAt f (l ++ r) l.length = l ++ updateAt f r 0 :=
  updateAt_append_right f l r 0

/-- Closed form of `setupUi`: the members point at twelve children appended to those `W`
already had, and the form has the object name, size and title below. -/
theorem setupUi_eq (tr : Translate) (ui : Ui_Widget) (W : QWidget) :
    setupUi tr ui W =
      (formMembers W.children.length,
        ⟨formObjectName W, 855, 600, tr "Widget" "Widget", W.children ++ formChildren tr⟩) := by
  unfold setupUi
  lift_lets
  intro W0 W1 r0 u0 Wa0 Wb0 Wc0 r1 u1 Wa1 Wb1 Wc1 r2 u2 Wa2 Wb2 Wc2 r3 u3 Wa3 Wb3 Wc3 r4 u4 Wa4
      Wb4 Wc4 r5 u5 Wa5 Wb5 Wc5 r6 u6 Wa6 Wb6 Wc6 r7 u7 Wa7 Wb7 Wc7 r8 u8 Wa8 Wb8 Wc8 r9 u9 Wa9
      Wb9 Wc9 r10 u10 Wa10 Wb10 Wc10 font Wf r11 u11 Wa11 Wb11 Wc11 Wr Wz
  have hW : W1 = ⟨formObjectName W, 855, 600, W.windowTitle, W.children⟩ := by
    simp only [W1, W0, QWidget.resize, QWidget.setObjectName, formObjectName]
    split <;> rfl
  have hu0 : u0 = ⟨W.children.length, ui.PortLine, ui.LabelIP, ui.LabelPort, ui.GetBtn,
      ui.MessageList, ui.SendBtn, ui.ChangeModeBtn, ui.FileLine, ui.LabelFile, ui.ModeLabel,
      ui.ClearBtn⟩ := by
    simp only [u0, r0, hW, QWidget.newChild, List.length_append, List.length_cons, List.length_nil,
        Nat.add_assoc, Nat.reduceAdd, Nat.zero_add, Nat.add_zero]
  have hWc0 : Wc0 = ⟨formObjectName W, 855, 600, W.windowTitle,
      W.children ++ [⟨WidgetClass.QLineEdit, "IPLine", ⟨130, 70, 221, 31⟩, none, none,
      false⟩]⟩ := by
    simp only [Wc0, Wb0, Wa0, r0, hu0, hW, QWidget.newChild, QWidget.childSetObjectName,
      QWidget.childSetGeometry, QWidget.childSetFont, ChildWidget.fresh, List.append_assoc,
      List.length_append, List.length_cons, List.length_nil, List.cons_append, List.nil_append,
      updateAt_append_right, updateAt_append_length, updateAt, Nat.add_assoc, Nat.reduceAdd,
      Nat.zero_add, List.append_nil]
  clear_value u0 Wc0
  have hu1 : u1 = ⟨W.children.length, W.children.length + 1, ui.LabelIP, ui.LabelPort, ui.GetBtn,
      ui.MessageList, ui.SendBtn, ui.ChangeModeBtn, ui.FileLine, ui.LabelFile, ui.ModeLabel,
      ui.ClearBtn⟩ := by
    simp only [u1, r1, hWc0, hu0, QWidget.newChild, List.length_append, List.length_cons,
        List.length_nil, Nat.add_assoc, Nat.reduceAdd, Nat.zero_add, Nat.add_zero]
  have hWc1 : Wc1 = ⟨formObjectName W, 855, 600, W.windowTitle,
      W.children ++ [⟨WidgetClass.QLineEdit, "IPLine", ⟨130, 70, 221, 31⟩, none, none, false⟩,
      ⟨WidgetClass.QLineEdit, "PortLine", ⟨130, 130, 221, 31⟩, none, none, false⟩]⟩ := by
    simp only [Wc1, Wb1, Wa1, r1, hu1, hWc0, QWidget.newChild, QWidget.childSetObjectName,
      QWidget.childSetGeometry, QWidget.childSetFont, ChildWidget.fresh, List.append_assoc,
      List.length_append, List.length_cons, List.length_nil, List.cons_append, List.nil_append,
      updateAt_append_right, updateAt_append_length, updateAt, Nat.add_assoc, Nat.reduceAdd,
      Nat.zero_add, List.append_nil]
  clear_value u1 Wc1
  have hu2 : u2 = ⟨W.children.length, W.children.length + 1, W.children.length + 2, ui.LabelPort,
      ui.GetBtn, ui.MessageList, ui.SendBtn, ui.ChangeModeBtn, ui.FileLine, ui.LabelFile,
      ui.ModeLabel, ui.ClearBtn⟩ := by
    simp only [u2, r2, hWc1, hu1, QWidget.newChild, List.length_append, List.length_cons,
        List.length_nil, Nat.add_assoc, Nat.reduceAdd, Nat.zero_add, Nat.add_zero]
  have hWc2 : Wc2 = ⟨formObjectName W, 855, 600, W.windowTitle,
      W.children ++ [⟨WidgetClass.QLineEdit, "IPLine", ⟨130, 70, 221, 31⟩, none, none, false⟩,
      ⟨WidgetClass.QLineEdit, "PortLine", ⟨130, 130, 221, 31⟩, none, none, false⟩,
      ⟨WidgetClass.QLabel, "LabelIP", ⟨20, 80, 101, 18⟩, none, none, false⟩]⟩ := by
    simp only [Wc2, Wb2, Wa2, r2, hu2, hWc1, QWidget.newChild, QWidget.childSetObjectName,
      QWidget.childSetGeometry, QWidget.childSetFont, ChildWidget.fresh, List.append_assoc,
      List.length_append, List.length_cons, List.length_nil, List.cons_append, List.nil_append,
      updateAt_append_right, updateAt_append_length, updateAt, Nat.add_assoc, Nat.reduceAdd,
      Nat.zero_add, List.append_nil]
  clear_value u2 Wc2
  have hu3 : u3 = ⟨W.children.length, W.children.length + 1, W.children.length + 2,
      W.children.length + 3, ui.GetBtn, ui.MessageList, ui.SendBtn, ui.ChangeModeBtn, ui.FileLine,
      ui.LabelFile, ui.ModeLabel, ui.ClearBtn⟩ := by
    simp only [u3, r3, hWc2, hu2, QWidget.newChild, List.length_append, List.length_cons,
        List.length_nil, Nat.add_assoc, Nat.reduceAdd, Nat.zero_add, Nat.add_zero]
  have hWc3 : Wc3 = ⟨formObjectName W, 855, 600, W.windowTitle,
      W.children ++ [⟨WidgetClass.QLineEdit, "IPLine", ⟨130, 70, 221, 31⟩, none, none, false⟩,
      ⟨WidgetClass.QLineEdit, "PortLine", ⟨130, 130, 221, 31⟩, none, none, false⟩,
      ⟨WidgetClass.QLabel, "LabelIP", ⟨20, 80, 101, 18⟩, none, none, false⟩,
      ⟨WidgetClass.QLabel, "LabelPort", ⟨10, 130, 121, 18⟩, none, none, false⟩]⟩ := by
    simp only [Wc3, Wb3, Wa3, r3, hu3, hWc2, QWidget.newChild, QWidget.childSetObjectName,
      QWidget.childSetGeometry, QWidget.childSetFont, ChildWidget.fresh, List.append_assoc,
      List.length_append, List.length_cons, List.length_nil, List.cons_append, List.nil_append,
      updateAt_append_right, updateAt_append_length, updateAt, Nat.add_assoc, Nat.reduceAdd,
      Nat.zero_add, List.append_nil]
  clear_value u3 Wc3
  have hu4 : u4 = ⟨W.children.length, W.children.length + 1, W.children.length + 2,
      W.children.length + 3, W.children.length + 4, ui.MessageList, ui.SendBtn, ui.ChangeModeBtn,
      ui.FileLine, ui.LabelFile, ui.ModeLabel, ui.ClearBtn⟩ := by
    simp only [u4, r4, hWc3, hu3, QWidget.newChild, List.length_append, List.length_cons,
        List.length_nil, Nat.add_assoc, Nat.reduceAdd, Nat.zero_add, Nat.add_zero]
  have hWc4 : Wc4 = ⟨formObjectName W, 855, 600, W.windowTitle,
      W.children ++ [⟨WidgetClass.QLineEdit, "IPLine", ⟨130, 70, 221, 31⟩, none, none, false⟩,
      ⟨WidgetClass.QLineEdit, "PortLine", ⟨130, 130, 221, 31⟩, none, none, false⟩,
      ⟨WidgetClass.QLabel, "LabelIP", ⟨20, 80, 101, 18⟩, none, none, false⟩,
      ⟨WidgetClass.QLabel, "LabelPort", ⟨10, 130, 121, 18⟩, none, none, false⟩,
      ⟨WidgetClass.QPushButton, "GetBtn", ⟨380, 70, 112, 34⟩, none, none, false⟩]⟩ := by
    simp only [Wc4, Wb4, Wa4, r4, hu4, hWc3, QWidget.newChild, QWidget.childSetObjectName,
      QWidget.childSetGeometry, QWidget.childSetFont, ChildWidget.fresh, List.append_assoc,
      List.length_append, List.length_cons, List.length_nil, List.cons_append, List.nil_append,
      updateAt_append_right, updateAt_append_length, updateAt, Nat.add_assoc, Nat.reduceAdd,
      Nat.zero_add, List.append_nil]
  clear_value u4 Wc4
  have hu5 : u5 = ⟨W.children.length, W.children.length + 1, W.children.length + 2,
      W.children.length + 3, W.children.length + 4, W.children.length + 5, ui.SendBtn,
      ui.ChangeModeBtn, ui.FileLine, ui.LabelFile, ui.ModeLabel, ui.ClearBtn⟩ := by
    simp only [u5, r5, hWc4, hu4, QWidget.newChild, List.length_append, List.length_cons,
        List.length_nil, Nat.add_assoc, Nat.reduceAdd, Nat.zero_add, Nat.add_zero]
  have hWc5 : Wc5 = ⟨formObjectName W, 855, 600, W.windowTitle,
      W.children ++ [⟨WidgetClass.QLineEdit, "IPLine", ⟨130, 70, 221, 31⟩, none, none, false⟩,
      ⟨WidgetClass.QLineEdit, "PortLine", ⟨130, 130, 221, 31⟩, none, none, false⟩,
      ⟨WidgetClass.QLabel, "LabelIP", ⟨20, 80, 101, 18⟩, none, none, false⟩,
      ⟨WidgetClass.QLabel, "LabelPort", ⟨10, 130, 121, 18⟩, none, none, false⟩,
      ⟨WidgetClass.QPushButton, "GetBtn", ⟨380, 70, 112, 34⟩, none, none, false⟩,
      ⟨WidgetClass.QListView, "MessageList", ⟨30, 190, 791, 381⟩, none, none, false⟩]⟩ := by
    simp only [Wc5, Wb5, Wa5, r5, hu5, hWc4, QWidget.newChild, QWidget.childSetObjectName,
      QWidget.childSetGeometry, QWidget.childSetFont, ChildWidget.fresh, List.append_assoc,
      List.length_append, List.length_cons, List.length_nil, List.cons_append, List.nil_append,
      updateAt_append_right, updateAt_append_length, updateAt, Nat.add_assoc, Nat.reduceAdd,
      Nat.zero_add, List.append_nil]
  clear_value u5 Wc5
  have hu6 : u6 = ⟨W.children.length, W.children.length + 1, W.children.length + 2,
      W.children.length + 3, W.children.length + 4, W.children.length + 5, W.children.length + 6,
      ui.ChangeModeBtn, ui.FileLine, ui.LabelFile, ui.ModeLabel, ui.ClearBtn⟩ := by
    simp only [u6, r6, hWc5, hu5, QWidget.newChild, List.length_append, List.length_cons,
        List.length_nil, Nat.add_assoc, Nat.reduceAdd, Nat.zero_add, Nat.add_zero]
  have hWc6 : Wc6 = ⟨formObjectName W, 855, 600, W.windowTitle,
      W.children ++ [⟨WidgetClass.QLineEdit, "IPLine", ⟨130, 70, 221, 31⟩, none, none, false⟩,
      ⟨WidgetClass.QLineEdit, "PortLine", ⟨130, 130, 221, 31⟩, none, none, false⟩,
      ⟨WidgetClass.QLabel, "LabelIP", ⟨20, 80, 101, 18⟩, none, none, false⟩,
      ⟨WidgetClass.QLabel, "LabelPort", ⟨10, 130, 121, 18⟩, none, none, false⟩,
      ⟨WidgetClass.QPushButton, "GetBtn", ⟨380, 70, 112, 34⟩, none, none, false⟩,
      ⟨WidgetClass.QListView, "MessageList", ⟨30, 190, 791, 381⟩, none, none, false⟩,
      ⟨WidgetClass.QPushButton, "SendBtn", ⟨380, 130, 112, 34⟩, none, none, false⟩]⟩ := by
    simp only [Wc6, Wb6, Wa6, r6, hu6, hWc5, QWidget.newChild, QWidget.childSetObjectName,
      QWidget.childSetGeometry, QWidget.childSetFont, ChildWidget.fresh, List.append_assoc,
      List.length_append, List.length_cons, List.length_nil, List.cons_append, List.nil_append,
      updateAt_append_right, updateAt_append_length, updateAt, Nat.add_assoc, Nat.reduceAdd,
      Nat.zero_add, List.append_nil]
  clear_value u6 Wc6
  have hu7 : u7 = ⟨W.children.length, W.children.length + 1, W.children.length + 2,
      W.children.length + 3, W.children.length + 4, W.children.length + 5, W.children.length + 6,
      W.children.length + 7, ui.FileLine, ui.LabelFile, ui.ModeLabel, ui.ClearBtn⟩ := by
    simp only [u7, r7, hWc6, hu6, QWidget.newChild, List.length_append, List.length_cons,
        List.length_nil, Nat.add_assoc, Nat.reduceAdd, Nat.zero_add, Nat.add_zero]
  have hWc7 : Wc7 = ⟨formObjectName W, 855, 600, W.windowTitle,
      W.children ++ [⟨WidgetClass.QLineEdit, "IPLine", ⟨130, 70, 221, 31⟩, none, none, false⟩,
      ⟨WidgetClass.QLineEdit, "PortLine", ⟨130, 130, 221, 31⟩, none, none, false⟩,
      ⟨WidgetClass.QLabel, "LabelIP", ⟨20, 80, 101, 18⟩, none, none, false⟩,
      ⟨WidgetClass.QLabel, "LabelPort", ⟨10, 130, 121, 18⟩, none, none, false⟩,
      ⟨WidgetClass.QPushButton, "GetBtn", ⟨380, 70, 112, 34⟩, none, none, false⟩,
      ⟨WidgetClass.QListView, "MessageList", ⟨30, 190, 791, 381⟩, none, none, false⟩,
      ⟨WidgetClass.QPushButton, "SendBtn", ⟨380, 130, 112, 34⟩, none, none, false⟩,
      ⟨WidgetClass.QPushButton, "ChangeModeBtn", ⟨510, 70, 112, 34⟩, none, none, false⟩]⟩ := by
    simp only [Wc7, Wb7, Wa7, r7, hu7, hWc6, QWidget.newChild, QWidget.childSetObjectName,
      QWidget.childSetGeometry, QWidget.childSetFont, ChildWidget.fresh, List.append_assoc,
      List.length_append, List.length_cons, List.length_nil, List.cons_append, List.nil_append,
      updateAt_append_right, updateAt_append_length, updateAt, Nat.add_assoc, Nat.reduceAdd,
      Nat.zero_add, List.append_nil]
  clear_value u7 Wc7
  have hu8 : u8 = ⟨W.children.length, W.children.length + 1, W.children.length + 2,
      W.children.length + 3, W.children.length + 4, W.children.length + 5, W.children.length + 6,
      W.children.length + 7, W.children.length + 8, ui.LabelFile, ui.ModeLabel, ui.ClearBtn⟩ := by
    simp only [u8, r8, hWc7, hu7, QWidget.newChild, List.length_append, List.length_cons,
        List.length_nil, Nat.add_assoc, Nat.reduceAdd, Nat.zero_add, Nat.add_zero]
  have hWc8 : Wc8 = ⟨formObjectName W, 855, 600, W.windowTitle,
      W.children ++ [⟨WidgetClass.QLineEdit, "IPLine", ⟨130, 70, 221, 31⟩, none, none, false⟩,
      ⟨WidgetClass.QLineEdit, "PortLine", ⟨130, 130, 221, 31⟩, none, none, false⟩,
      ⟨WidgetClass.QLabel, "LabelIP", ⟨20, 80, 101, 18⟩, none, none, false⟩,
      ⟨WidgetClass.QLabel, "LabelPort", ⟨10, 130, 121, 18⟩, none, none, false⟩,
      ⟨WidgetClass.QPushButton, "GetBtn", ⟨380, 70, 112, 34⟩, none, none, false⟩,
      ⟨WidgetClass.QListView, "MessageList", ⟨30, 190, 791, 381⟩, none, none, false⟩,
      ⟨WidgetClass.QPushButton, "SendBtn", ⟨380, 130, 112, 34⟩, none, none, false⟩,
      ⟨WidgetClass.QPushButton, "ChangeModeBtn", ⟨510, 70, 112, 34⟩, none, none, false⟩,
      ⟨WidgetClass.QLineEdit, "FileLine", ⟨130, 20, 591, 31⟩, none, none, false⟩]⟩ := by
    simp only [Wc8, Wb8, Wa8, r8, hu8, hWc7, QWidget.newChild, QWidget.childSetObjectName,
      QWidget.childSetGeometry, QWidget.childSetFont, ChildWidget.fresh, List.append_assoc,
      List.length_append, List.length_cons, List.length_nil, List.cons_append, List.nil_append,
      updateAt_append_right, updateAt_append_length, updateAt, Nat.add_assoc, Nat.reduceAdd,
      Nat.zero_add, List.append_nil]
  clear_value u8 Wc8
  have hu9 : u9 = ⟨W.children.length, W.children.length + 1, W.children.length + 2,
      W.children.length + 3, W.children.length + 4, W.children.length + 5, W.children.length + 6,
      W.children.length + 7, W.children.length + 8, W.children.length + 9, ui.ModeLabel,
      ui.ClearBtn⟩ := by
    simp only [u9, r9, hWc8, hu8, QWidget.newChild, List.length_append, List.length_cons,
        List.length_nil, Nat.add_assoc, Nat.reduceAdd, Nat.zero_add, Nat.add_zero]
  have hWc9 : Wc9 = ⟨formObjectName W, 855, 600, W.windowTitle,
      W.children ++ [⟨WidgetClass.QLineEdit, "IPLine", ⟨130, 70, 221, 31⟩, none, none, false⟩,
      ⟨WidgetClass.QLineEdit, "PortLine", ⟨130, 130, 221, 31⟩, none, none, false⟩,
      ⟨WidgetClass.QLabel, "LabelIP", ⟨20, 80, 101, 18⟩, none, none, false⟩,
      ⟨WidgetClass.QLabel, "LabelPort", ⟨10, 130, 121, 18⟩, none, none, false⟩,
      ⟨WidgetClass.QPushButton, "GetBtn", ⟨380, 70, 112, 34⟩, none, none, false⟩,
      ⟨WidgetClass.QListView, "MessageList", ⟨30, 190, 791, 381⟩, none, none, false⟩,
      ⟨WidgetClass.QPushButton, "SendBtn", ⟨380, 130, 112, 34⟩, none, none, false⟩,
      ⟨WidgetClass.QPushButton, "ChangeModeBtn", ⟨510, 70, 112, 34⟩, none, none, false⟩,
      ⟨WidgetClass.QLineEdit, "FileLine", ⟨130, 20, 591, 31⟩, none, none, false⟩,
      ⟨WidgetClass.QLabel, "LabelFile", ⟨30, 20, 81, 18⟩, none, none, false⟩]⟩ := by
    simp only [Wc9, Wb9, Wa9, r9, hu9, hWc8, QWidget.newChild, QWidget.childSetObjectName,
      QWidget.childSetGeometry, QWidget.childSetFont, ChildWidget.fresh, List.append_assoc,
      List.length_append, List.length_cons, List.length_nil, List.cons_append, List.nil_append,
      updateAt_append_right, updateAt_append_length, updateAt, Nat.add_assoc, Nat.reduceAdd,
      Nat.zero_add, List.append_nil]
  clear_value u9 Wc9
  have hu10 : u10 = ⟨W.children.length, W.children.length + 1, W.children.length + 2,
      W.children.length + 3, W.children.length + 4, W.children.length + 5, W.children.length + 6,
      W.children.length + 7, W.children.length + 8, W.children.length + 9, W.children.length + 10,
      ui.ClearBtn⟩ := by
    simp only [u10, r10, hWc9, hu9, QWidget.newChild, List.length_append, List.length_cons,
        List.length_nil, Nat.add_assoc, Nat.reduceAdd, Nat.zero_add, Nat.add_zero]
  have hWc10 : Wc10 = ⟨formObjectName W, 855, 600, W.windowTitle,
      W.children ++ [⟨WidgetClass.QLineEdit, "IPLine", ⟨130, 70, 221, 31⟩, none, none, false⟩,
      ⟨WidgetClass.QLineEdit, "PortLine", ⟨130, 130, 221, 31⟩, none, none, false⟩,
      ⟨WidgetClass.QLabel, "LabelIP", ⟨20, 80, 101, 18⟩, none, none, false⟩,
      ⟨WidgetClass.QLabel, "LabelPort", ⟨10, 130, 121, 18⟩, none, none, false⟩,
      ⟨WidgetClass.QPushButton, "GetBtn", ⟨380, 70, 112, 34⟩, none, none, false⟩,
      ⟨WidgetClass.QListView, "MessageList", ⟨30, 190, 791, 381⟩, none, none, false⟩,
      ⟨WidgetClass.QPushButton, "SendBtn", ⟨380, 130, 112, 34⟩, none, none, false⟩,
      ⟨WidgetClass.QPushButton, "ChangeModeBtn", ⟨510, 70, 112, 34⟩, none, none, false⟩,
      ⟨WidgetClass.QLineEdit, "FileLine", ⟨130, 20, 591, 31⟩, none, none, false⟩,
      ⟨WidgetClass.QLabel, "LabelFile", ⟨30, 20, 81, 18⟩, none, none, false⟩,
      ⟨WidgetClass.QLabel, "ModeLabel", ⟨640, 80, 201, 16⟩, none, none, false⟩]⟩ := by
    simp only [Wc10, Wb10, Wa10, r10, hu10, hWc9, QWidget.newChild, QWidget.childSetObjectName,
      QWidget.childSetGeometry, QWidget.childSetFont, ChildWidget.fresh, List.append_assoc,
      List.length_append, List.length_cons, List.length_nil, List.cons_append, List.nil_append,
      updateAt_append_right, updateAt_append_length, updateAt, Nat.add_assoc, Nat.reduceAdd,
      Nat.zero_add, List.append_nil]
  clear_value u10 Wc10
  have hWf : Wf = ⟨formObjectName W, 855, 600, W.windowTitle,
      W.children ++ [⟨WidgetClass.QLineEdit, "IPLine", ⟨130, 70, 221, 31⟩, none, none, false⟩,
      ⟨WidgetClass.QLineEdit, "PortLine", ⟨130, 130, 221, 31⟩, none, none, false⟩,
      ⟨WidgetClass.QLabel, "LabelIP", ⟨20, 80, 101, 18⟩, none, none, false⟩,
      ⟨WidgetClass.QLabel, "LabelPort", ⟨10, 130, 121, 18⟩, none, none, false⟩,
      ⟨WidgetClass.QPushButton, "GetBtn", ⟨380, 70, 112, 34⟩, none, none, false⟩,
      ⟨WidgetClass.QListView, "MessageList", ⟨30, 190, 791, 381⟩, none, none, false⟩,
      ⟨WidgetClass.QPushButton, "SendBtn", ⟨380, 130, 112, 34⟩, none, none, false⟩,
      ⟨WidgetClass.QPushButton, "ChangeModeBtn", ⟨510, 70, 112, 34⟩, none, none, false⟩,
      ⟨WidgetClass.QLineEdit, "FileLine", ⟨130, 20, 591, 31⟩, none, none, false⟩,
      ⟨WidgetClass.QLabel, "LabelFile", ⟨30, 20, 81, 18⟩, none, none, false⟩,
      ⟨WidgetClass.QLabel, "ModeLabel", ⟨640, 80, 201, 16⟩, none, some 12, false⟩]⟩ := by
    simp only [Wf, font, hu10, hWc10, QWidget.newChild, QWidget.childSetObjectName,
      QWidget.childSetGeometry, QWidget.childSetFont, ChildWidget.fresh, List.append_assoc,
      List.length_append, List.length_cons, List.length_nil, List.cons_append, List.nil_append,
      updateAt_append_right, updateAt_append_length, updateAt, Nat.add_assoc, Nat.reduceAdd,
      Nat.zero_add, List.append_nil]
  clear_value Wf
  have hu11 : u11 = ⟨W.children.length, W.children.length + 1, W.children.length + 2,
      W.children.length + 3, W.children.length + 4, W.children.length + 5, W.children.length + 6,
      W.children.length + 7, W.children.length + 8, W.children.length + 9, W.children.length + 10,
      W.children.length + 11⟩ := by
    simp only [u11, r11, hWf, hu10, QWidget.newChild, List.length_append, List.length_cons,
        List.length_nil, Nat.add_assoc, Nat.reduceAdd, Nat.zero_add, Nat.add_zero]
  have hWc11 : Wc11 = ⟨formObjectName W, 855, 600, W.windowTitle,
      W.children ++ [⟨WidgetClass.QLineEdit, "IPLine", ⟨130, 70, 221, 31⟩, none, none, false⟩,
      ⟨WidgetClass.QLineEdit, "PortLine", ⟨130, 130, 221, 31⟩, none, none, false⟩,
      ⟨WidgetClass.QLabel, "LabelIP", ⟨20, 80, 101, 18⟩, none, none, false⟩,
      ⟨WidgetClass.QLabel, "LabelPort", ⟨10, 130, 121, 18⟩, none, none, false⟩,
      ⟨WidgetClass.QPushButton, "GetBtn", ⟨380, 70, 112, 34⟩, none, none, false⟩,
      ⟨WidgetClass.QListView, "MessageList", ⟨30, 190, 791, 381⟩, none, none, false⟩,
      ⟨WidgetClass.QPushButton, "SendBtn", ⟨380, 130, 112, 34⟩, none, none, false⟩,
      ⟨WidgetClass.QPushButton, "ChangeModeBtn", ⟨510, 70, 112, 34⟩, none, none, false⟩,
      ⟨WidgetClass.QLineEdit, "FileLine", ⟨130, 20, 591, 31⟩, none, none, false⟩,
      ⟨WidgetClass.QLabel, "LabelFile", ⟨30, 20, 81, 18⟩, none, none, false⟩,
      ⟨WidgetClass.QLabel, "ModeLabel", ⟨640, 80, 201, 16⟩, none, some 12, false⟩,
      ⟨WidgetClass.QPushButton, "ClearBtn", ⟨510, 130, 112, 34⟩, none, none, false⟩]⟩ := by
    simp only [Wc11, Wb11, Wa11, r11, hu11, hWf, QWidget.newChild, QWidget.childSetObjectName,
      QWidget.childSetGeometry, QWidget.childSetFont, ChildWidget.fresh, List.append_assoc,
      List.length_append, List.length_cons, List.length_nil, List.cons_append, List.nil_append,
      updateAt_append_right, updateAt_append_length, updateAt, Nat.add_assoc, Nat.reduceAdd,
      Nat.zero_add, List.append_nil]
  clear_value u11 Wc11
  have hWz : Wz = ⟨formObjectName W, 855, 600, tr "Widget" "Widget",
      W.children ++ formChildren tr⟩ := by
    simp only [Wz, Wr, connectSlotsByName, retranslateUi, hu11, hWc11, QWidget.setWindowTitle,
      QWidget.childSetText, formChildren, updateAt_append_right, updateAt_append_length, updateAt]
  rw [hu11, hWz]
  rfl


theorem createdChildren_eq (tr : Translate) (ui : Ui_Widget) (W : QWidget) :
    createdChildren tr ui W = formChildren tr := by
  simp [createdChildren, setupUi_eq]

theorem child_append_right (W : QWidget) (l : List ChildWidget) (title name : String)
    (w h : Int) (i : Nat) :
    QWidget.child ⟨name, w, h, title, W.children ++ l⟩ (W.children.length + i) = l[i]? := by
  simp [QWidget.child, List.getElem?_append_right]

theorem child_append_length (W : QWidget) (l : List ChildWidget) (title name : String)
    (w h : Int) :
    QWidget.child ⟨name, w, h, title, W.children ++ l⟩ W.children.length = l[0]? := by
  simpa using child_append_right W l title name w h 0

theorem QRect.intersects_iff (r s : QRect) : r.intersects s = true ↔ r.overlaps s := by
  simp only [QRect.intersects, QRect.overlaps, QRect.contains, Bool.and_eq_true,
    decide_eq_true_eq]
  constructor
  · rintro ⟨hx, hy⟩
    exact ⟨max r.x s.x, max r.y s.y, by omega, by omega⟩
  · rintro ⟨px, py, h1, h2⟩
    omega

/-- C1: after `setupUi`, with `translate` the identity on its source text, the `PortLine`
member points at an editable `QLineEdit` whose text is exactly "69"; the value is a default:
a later `setText` on that field replaces it. -/
theorem C1_default_port (ui : Ui_Widget) (W : QWidget) :
    (∃ c, (setupUi translateId ui W).2.child (setupUi translateId ui W).1.PortLine = some c ∧
      c.cls = WidgetClass.QLineEdit ∧ c.text = some "69" ∧ c.readOnly = false) ∧
    (∀ s : String, ∃ c,
      ((setupUi translateId ui W).2.childSetText (setupUi translateId ui W).1.PortLine s).child
          (setupUi translateId ui W).1.PortLine = some c ∧
        c.text = some s) := by
  rw [setupUi_eq]
  refine ⟨?_, fun s => ?_⟩
  · simp only [formMembers, child_append_right]
    exact ⟨_, rfl, rfl, rfl, rfl⟩
  · simp only [formMembers, QWidget.childSetText, updateAt_append_right, child_append_right,
      formChildren, updateAt]
    exact ⟨_, rfl, rfl⟩

/-- C8: after `setupUi`, with `translate` the identity, the mode label reads
"Current Mode: octet", the four buttons read "Get", "Send", "Change Mode" and "Clear", the
IP field reads "10.12.174.1", and `FileLine` and `MessageList` received no text. -/
theorem C8_initial_texts (ui : Ui_Widget) (W : QWidget) :
    (((setupUi translateId ui W).1.members.map
        (fun m => (m.1, ((setupUi translateId ui W).2.child m.2).map (fun c => c.text)))) =
      [("IPLine", some (some "10.12.174.1")), ("PortLine", some (some "69")),
       ("LabelIP", some (some "Server IP:")), ("LabelPort", some (some "Server Port:")),
       ("GetBtn", some (some "Get")), ("MessageList", some none),
       ("SendBtn", some (some "Send")), ("ChangeModeBtn", some (some "Change Mode")),
       ("FileLine", some none), ("LabelFile", some (some "File:")),
       ("ModeLabel", some (some "Current Mode: octet")), ("ClearBtn", some (some "Clear"))]) := by
  rw [setupUi_eq]
  simp only [formMembers, Ui_Widget.members, List.map, child_append_right, child_append_length]
  rfl

/-- C2: `setupUi` creates exactly twelve children after those `W` had, which it leaves
untouched; each member of `Ui_Widget` points at one of the new children, no two at the same
one, and that child carries the name of the member and the class listed: three `QLineEdit`
(IPLine, PortLine, FileLine), four `QLabel` (LabelIP, LabelPort, LabelFile, ModeLabel), four
`QPushButton` (GetBtn, SendBtn, ChangeModeBtn, ClearBtn) and one `QListView` (MessageList);
the twelve object names are pairwise distinct. -/
theorem C2_widget_set (tr : Translate) (ui : Ui_Widget) (W : QWidget) :
    (setupUi tr ui W).2.children.take W.children.length = W.children ∧
    (setupUi tr ui W).2.children.length = W.children.length + 12 ∧
    (createdChildren tr ui W).length = 12 ∧
    ((setupUi tr ui W).1.members.map
        (fun m => (m.1, ((setupUi tr ui W).2.child m.2).map (fun c => (c.objectName, c.cls)))) =
      [("IPLine", some ("IPLine", WidgetClass.QLineEdit)),
       ("PortLine", some ("PortLine", WidgetClass.QLineEdit)),
       ("LabelIP", some ("LabelIP", WidgetClass.QLabel)),
       ("LabelPort", some ("LabelPort", WidgetClass.QLabel)),
       ("GetBtn", some ("GetBtn", WidgetClass.QPushButton)),
       ("MessageList", some ("MessageList", WidgetClass.QListView)),
       ("SendBtn", some ("SendBtn", WidgetClass.QPushButton)),
       ("ChangeModeBtn", some ("ChangeModeBtn", WidgetClass.QPushButton)),
       ("FileLine", some ("FileLine", WidgetClass.QLineEdit)),
       ("LabelFile", some ("LabelFile", WidgetClass.QLabel)),
       ("ModeLabel", some ("ModeLabel", WidgetClass.QLabel)),
       ("ClearBtn", some ("ClearBtn", WidgetClass.QPushButton))]) ∧
    (∀ m ∈ (setupUi tr ui W).1.members,
      W.children.length ≤ m.2 ∧ m.2 < (setupUi tr ui W).2.children.length) ∧
    ((setupUi tr ui W).1.members.map Prod.snd).Nodup ∧
    ((createdChildren tr ui W).map (fun c => c.objectName)).Nodup ∧
    ((createdChildren tr ui W).filter (fun c => c.cls = WidgetClass.QLineEdit)).map
        (fun c => c.objectName) = ["IPLine", "PortLine", "FileLine"] ∧
    ((createdChildren tr ui W).filter (fun c => c.cls = WidgetClass.QLabel)).map
        (fun c => c.objectName) = ["LabelIP", "LabelPort", "LabelFile", "ModeLabel"] ∧
    ((createdChildren tr ui W).filter (fun c => c.cls = WidgetClass.QPushButton)).map
        (fun c => c.objectName) = ["GetBtn", "SendBtn", "ChangeModeBtn", "ClearBtn"] ∧
    ((createdChildren tr ui W).filter (fun c => c.cls = WidgetClass.QListView)).map
        (fun c => c.objectName) = ["MessageList"] := by
  rw [createdChildren_eq, setupUi_eq]
  refine ⟨?_, ?_, rfl, ?_, ?_, ?_, ?_, ?_, ?_, ?_, ?_⟩
  · simp
  · simp [formChildren]
  · simp only [formMembers, Ui_Widget.members, List.map, child_append_right,
      child_append_length]
    rfl
  · intro m hm
    simp only [formMembers, Ui_Widget.members, List.mem_cons, List.mem_singleton,
      List.not_mem_nil, or_false] at hm
    simp only [List.length_append, formChildren, List.length_cons, List.length_nil]
    rcases hm with h | h | h | h | h | h | h | h | h | h | h | h <;> subst h <;> simp
  · simp [formMembers, Ui_Widget.members]
  · simp only [formChildren, List.map]
    decide
  · rfl
  · rfl
  · rfl
  · rfl

/-- C7: the outcome of `setupUi` does not depend on the widget it is given, apart from the
one branch on an empty object name: for any two runs the window size is 855 x 600, the
window titles agree, and the created children, as well as what each member points at, are
the same constants (class, object name, geometry, text). -/
theorem C7_no_data_dependence (tr : Translate) (ui1 ui2 : Ui_Widget) (W1 W2 : QWidget) :
    (setupUi tr ui1 W1).2.width = 855 ∧ (setupUi tr ui1 W1).2.height = 600 ∧
    (setupUi tr ui2 W2).2.width = 855 ∧ (setupUi tr ui2 W2).2.height = 600 ∧
    (setupUi tr ui1 W1).2.windowTitle = tr "Widget" "Widget" ∧
    (setupUi tr ui1 W1).2.windowTitle = (setupUi tr ui2 W2).2.windowTitle ∧
    createdChildren tr ui1 W1 = formChildren tr ∧
    createdChildren tr ui1 W1 = createdChildren tr ui2 W2 ∧
    (setupUi tr ui1 W1).1.members.map (fun m => (m.1, (setupUi tr ui1 W1).2.child m.2)) =
      (setupUi tr ui2 W2).1.members.map (fun m => (m.1, (setupUi tr ui2 W2).2.child m.2)) ∧
    (setupUi tr ui1 W1).2.objectName =
      (if W1.objectName.isEmpty then "Widget" else W1.objectName) := by
  rw [createdChildren_eq, createdChildren_eq, setupUi_eq, setupUi_eq]
  refine ⟨rfl, rfl, rfl, rfl, rfl, rfl, rfl, rfl, ?_, rfl⟩
  simp only [formMembers, Ui_Widget.members, List.map, child_append_right,
    child_append_length]

/-- C9: each of the twelve rectangles given to the children lies inside the window as
`setupUi` sizes it: `0 <= x`, `0 <= y`, `x + w <= 855` and `y + h <= 600`. -/
theorem C9_children_fit (tr : Translate) (ui : Ui_Widget) (W : QWidget) :
    (setupUi tr ui W).2.width = 855 ∧ (setupUi tr ui W).2.height = 600 ∧
    (createdChildren tr ui W).length = 12 ∧
    ∀ c ∈ createdChildren tr ui W,
      c.geometry.fitsIn (setupUi tr ui W).2.width (setupUi tr ui W).2.height := by
  rw [createdChildren_eq, setupUi_eq]
  refine ⟨rfl, rfl, rfl, ?_⟩
  intro c hc
  simp only [formChildren, List.mem_cons, List.mem_singleton, List.not_mem_nil, or_false] at hc
  rcases hc with h | h | h | h | h | h | h | h | h | h | h | h <;> subst h <;>
    simp only [QRect.fitsIn] <;> decide

theorem formChildren_geometry (tr : Translate) :
    (formChildren tr).map (fun c => (c.objectName, c.geometry)) = formGeometry :=
  rfl

set_option maxRecDepth 100000 in
theorem formGeometry_intersects :
    ∀ p ∈ formGeometry, ∀ q ∈ formGeometry, p.1 ≠ q.1 →
      (p.2.intersects q.2 = true ↔
        (p.1 = "LabelPort" ∧ q.1 = "PortLine") ∨ (p.1 = "PortLine" ∧ q.1 = "LabelPort")) := by
  decide

/-- C10: among the twelve rectangles laid out by `setupUi`, read as pixel sets, exactly one
pair of children (they are told apart by their object names) shares a pixel: `LabelPort`
(10,130,121,18) and `PortLine` (130,130,221,31); what they share is the pixel column
`x = 130` on rows 130..147, and every other pair is disjoint. -/
theorem C10_single_overlap (tr : Translate) (ui : Ui_Widget) (W : QWidget) :
    (createdChildren tr ui W).length = 12 ∧
    ((createdChildren tr ui W).map (fun c => c.objectName)).Nodup ∧
    (∀ a ∈ createdChildren tr ui W, ∀ b ∈ createdChildren tr ui W,
      a.objectName ≠ b.objectName →
        (a.geometry.overlaps b.geometry ↔
          (a.objectName = "LabelPort" ∧ b.objectName = "PortLine") ∨
          (a.objectName = "PortLine" ∧ b.objectName = "LabelPort"))) ∧
    (∀ a ∈ createdChildren tr ui W, ∀ b ∈ createdChildren tr ui W,
      a.objectName = "LabelPort" → b.objectName = "PortLine" →
        a.geometry = ⟨10, 130, 121, 18⟩ ∧ b.geometry = ⟨130, 130, 221, 31⟩ ∧
        ∀ px py : Int, (a.geometry.contains px py ∧ b.geometry.contains px py) ↔
          (px = 130 ∧ 130 ≤ py ∧ py ≤ 147)) := by
  rw [createdChildren_eq]
  have mem : ∀ a ∈ formChildren tr, (a.objectName, a.geometry) ∈ formGeometry := by
    intro a ha
    rw [← formChildren_geometry tr]
    exact List.mem_map_of_mem (fun c => (c.objectName, c.geometry)) ha
  refine ⟨rfl, ?_, ?_, ?_⟩
  · simp only [formChildren, List.map]
    decide
  · intro a ha b hb hne
    rw [← QRect.intersects_iff]
    exact formGeometry_intersects _ (mem a ha) _ (mem b hb) hne
  · intro a ha b hb hna hnb
    have h1 : ∀ p ∈ formGeometry, p.1 = "LabelPort" → p.2 = ⟨10, 130, 121, 18⟩ := by decide
    have h2 : ∀ p ∈ formGeometry, p.1 = "PortLine" → p.2 = ⟨130, 130, 221, 31⟩ := by decide
    have ga := h1 _ (mem a ha) hna
    have gb := h2 _ (mem b hb) hnb
    simp only at ga gb
    refine ⟨ga, gb, ?_⟩
    intro px py
    rw [ga, gb]
    simp only [QRect.contains]
    omega

theorem splitAtNul_append (s rest : List Nat) (hs : ∀ b ∈ s, 0 < b) :
    splitAtNul (s ++ 0 :: rest) = some (s, rest) := by
  induction s with
  | nil => simp [splitAtNul]
  | cons b bs ih =>
    have hb : b ≠ 0 := Nat.pos_iff_ne_zero.mp (hs b (List.mem_cons_self b bs))
    have hbs : ∀ c ∈ bs, 0 < c := fun c hc => hs c (List.mem_cons_of_mem b hc)
    simp [splitAtNul, hb, ih hbs]

theorem Mode.ofWire_wireName (m : Mode) : Mode.ofWire m.wireName = some m := by
  cases m <;> decide

theorem decodeRequest_encoded (mk : List Nat → Mode → Packet) (filename : List Nat)
    (mode : Mode) (h : validString filename) :
    decodeRequest mk (filename ++ 0 :: (mode.wireName ++ [0])) = Except.ok (mk filename mode) := by
  have hf : ∀ b ∈ filename, 0 < b := fun b hb => (h b hb).1
  have hm : ∀ b ∈ mode.wireName, 0 < b := by cases mode <;> decide
  simp [decodeRequest, splitAtNul_append _ _ hf, splitAtNul_append _ _ hm,
    Mode.ofWire_wireName]

/-- C3: for every valid packet `P` (a request, a DATA packet with at most 512 payload
bytes, an acknowledgment or an error packet, with fields in range), decoding the encoding
of `P` returns `P`. -/
theorem C3_decode_encode (P : Packet) (h : P.valid) : decode (encode P) = Except.ok P := by
  cases P with
  | ReadRequest filename mode =>
    simpa [encode, decode, u16be] using decodeRequest_encoded Packet.ReadRequest filename mode h
  | WriteRequest filename mode =>
    simpa [encode, decode, u16be] using decodeRequest_encoded Packet.WriteRequest filename mode h
  | Data blockNumber payload =>
    obtain ⟨hb, hl, _⟩ := h
    have e : blockNumber / 256 % 256 * 256 + blockNumber % 256 = blockNumber := by omega
    simp [encode, decode, u16be, List.take_of_length_le hl, hl, e]
  | Acknowledgment blockNumber =>
    have hb : blockNumber < 65536 := h
    have e : blockNumber / 256 % 256 * 256 + blockNumber % 256 = blockNumber := by omega
    simp [encode, decode, u16be, e]
  | Error code message =>
    obtain ⟨hc, hm⟩ := h
    have e : code / 256 % 256 * 256 + code % 256 = code := by omega
    have hm0 : ∀ b ∈ message, 0 < b := fun b hb => (hm b hb).1
    simp [encode, decode, u16be, e, splitAtNul_append _ _ hm0]

theorem C3_decode_encode_witness :
    (Packet.Data 65535 [1, 2, 3]).valid ∧
    decode (encode (Packet.Data 65535 [1, 2, 3])) = Except.ok (Packet.Data 65535 [1, 2, 3]) :=
  ⟨by decide, C3_decode_encode (Packet.Data 65535 [1, 2, 3]) (by decide)⟩

/-- C4: `decode` returns `Malformed`, and no packet, on every buffer that is shorter than
2 bytes, or whose big-endian 16-bit opcode is outside 1..5, or whose opcode is 3 (DATA) and
whose payload, the bytes after opcode and block number, is longer than 512 bytes. -/
theorem C4_decode_rejects (buf : List Nat)
    (h : buf.length < 2 ∨ (∃ op, opcodeOf buf = some op ∧ (op < 1 ∨ 5 < op)) ∨
      (opcodeOf buf = some 3 ∧ 512 < (buf.drop 4).length)) :
    decode buf = Except.error DecodeError.Malformed ∧ ∀ P, decode buf ≠ Except.ok P := by
  have key : decode buf = Except.error DecodeError.Malformed := by
    rcases h with h | ⟨op, hop, hr⟩ | ⟨hop, hlen⟩
    · match buf, h with
      | [], _ => rfl
      | [_], _ => rfl
      | _ :: _ :: _, h => exact absurd h (by simp)
    · match buf, hop with
      | hi :: lo :: body, hop =>
        simp only [opcodeOf, Option.some.injEq] at hop
        have h1 : hi * 256 + lo ≠ 1 := by omega
        have h2 : hi * 256 + lo ≠ 2 := by omega
        have h3 : hi * 256 + lo ≠ 3 := by omega
        have h4 : hi * 256 + lo ≠ 4 := by omega
        have h5 : hi * 256 + lo ≠ 5 := by omega
        simp [decode, h1, h2, h3, h4, h5]
    · match buf, hop, hlen with
      | hi :: lo :: bh :: bl :: payload, hop, hlen =>
        simp only [opcodeOf, Option.some.injEq] at hop
        simp only [List.drop_succ_cons, List.drop_zero] at hlen
        have hnot : ¬ payload.length ≤ 512 := by omega
        simp [decode, hop, hnot]
      | [_, _], _, hlen => simp at hlen
      | [_, _, _], _, hlen => simp at hlen
  exact ⟨key, fun P hP => by rw [key] at hP; cases hP⟩

theorem C4_decode_rejects_witness :
    opcodeOf [0, 6, 0, 1] = some 6 ∧
    decode [0, 6, 0, 1] = Except.error DecodeError.Malformed ∧
    ∀ P, decode [0, 6, 0, 1] ≠ Except.ok P :=
  ⟨rfl, C4_decode_rejects [0, 6, 0, 1] (Or.inr (Or.inl ⟨6, rfl, Or.inr (by decide)⟩))⟩

/-- C5: for a session awaiting a reply, a timeout with no retries left moves the session to
`Aborted` with the `Timeout` reason; with retries left it re-sends `lastSentPacket` as it
is, restarts the timer, lowers `retriesRemaining` by exactly one and changes nothing else,
the state included. -/
theorem C5_timeout (s : TransferSession) (h : s.awaitingReply) :
    (s.retriesRemaining = 0 →
      (onTimeout s).1.state = SessionState.Aborted AbortReason.Timeout ∧
      (onTimeout s).2 = []) ∧
    (0 < s.retriesRemaining →
      (∀ p, s.lastSentPacket = some p → (onTimeout s).2 = [Effect.send p, Effect.armTimer]) ∧
      (onTimeout s).1.retriesRemaining + 1 = s.retriesRemaining ∧
      (onTimeout s).1.state = s.state ∧
      (onTimeout s).1.lastSentPacket = s.lastSentPacket ∧
      (onTimeout s).1 = { s with retriesRemaining := s.retriesRemaining - 1 }) := by
  constructor
  · intro h0
    rcases h with h | h <;> simp [onTimeout, h, h0]
  · intro hpos
    have hne : s.retriesRemaining ≠ 0 := Nat.pos_iff_ne_zero.mp hpos
    have hdec : s.retriesRemaining - 1 + 1 = s.retriesRemaining := by omega
    rcases h with h | h
    · refine ⟨fun p hp => by simp [onTimeout, h, hne, hp], ?_, ?_, ?_, ?_⟩ <;>
        simp [onTimeout, h, hne, hdec]
    · refine ⟨fun p hp => by simp [onTimeout, h, hne, hp], ?_, ?_, ?_, ?_⟩ <;>
        simp [onTimeout, h, hne, hdec]

theorem C5_timeout_witness :
    sampleSession.awaitingReply ∧ 0 < sampleSession.retriesRemaining ∧
    (onTimeout sampleSession).1.retriesRemaining + 1 = sampleSession.retriesRemaining ∧
    (onTimeout sampleSession).1.state = sampleSession.state :=
  ⟨by decide, by decide,
    ((C5_timeout sampleSession (by decide)).2 (by decide)).2.1,
    ((C5_timeout sampleSession (by decide)).2 (by decide)).2.2.1⟩

/-- C6: in netascii mode `toWire` maps the local bytes `A, LF, B` to the wire bytes
`A, CR, LF, B` and `fromWire` maps the wire bytes `A, CR, NUL, B` to the local bytes
`A, CR, B`; in octet mode both are the identity on every byte sequence. -/
theorem C6_mode_transform :
    toWire [65, LF, 66] Mode.netascii = [65, CR, LF, 66] ∧
    fromWire [65, CR, NUL, 66] Mode.netascii = [65, CR, 66] ∧
    (∀ bytes : List Nat, toWire bytes Mode.octet = bytes) ∧
    (∀ bytes : List Nat, fromWire bytes Mode.octet = bytes) :=
  ⟨by decide, by decide, fun _ => rfl, fun _ => rfl⟩

end TFTP
